import Mathlib

/-!
Shallow embedding of the cffi adapter layer of the ddcutil Python bindings
(`src/cffi/ddc_cffi.py`), together with theorems settling the claims about it.

Conventions of the embedding:
* Python non-negative integers are `Nat`; C status codes are `Int`.
* A C `char *` that may be NULL is `Option String` (`none` = NULL pointer);
  `ffi.string` applied to a non-NULL pointer yields the decoded `String`.
* Calls into the native library (`lib.ddca_...`) are modelled either as
  opaque function parameters (for pure lookups such as `ddca_rc_name`) or as
  emitted `NativeCall` events (for the handle-freeing entry points), with the
  native status code `rc` supplied as an input where the Python code checks it.
* A Python exception escaping a function is an `Except.error`; the exception
  classes that matter to the claims are the constructors of `PyErr` or the
  structured `DDC_Exception`.
* A Python `dict` is an insertion-ordered association list `List (Nat × String)`
  with `dictInsert` reproducing dict assignment (update in place when the key
  is present, append otherwise).
* A cdata object obtained by indexing a native array (`dilist.info[ndx]`) is
  a reference into memory owned by the native library, not a copy; it is
  modelled as the index of the record, and every dereference takes the current
  native memory as an explicit argument.
-/

/-- Python-level errors that the embedded fragments can raise, besides the
structured `DDC_Exception`: `nameError` for a reference to an undefined name,
`typeError` for a call with a wrong number of arguments, `keyError` for an
absent dict key, `nullDeref` for `ffi.string` applied to a NULL pointer, and
`bufferOverrun` for the unbounded table scan running past the end of the
native array. -/
inductive PyErr where
  | nameError
  | typeError
  | keyError
  | nullDeref
  | bufferOverrun
deriving DecidableEq, Repr

/-!
## Error handling (`DDC_Exception`, `check_ddca_status`)

`ddc_cffi.py` lines 57-96.  `rc_name` / `rc_desc` wrap the native lookups
`lib.ddca_rc_name` / `lib.ddca_rc_desc`; the embedding passes them in as
function parameters `rcName rcDesc : Int → String`.
-/

/-- Structured error of the adapter: `DDC_Exception.__init__` stores the
status code in `self.status` and builds the exception message. -/
structure DDC_Exception where
  status : Int
  message : String
deriving DecidableEq, Repr

/-- Embedding of `DDC_Exception.__init__(rc, msg=None)`:
`s0 = "DDC status: %s - %s" % (rc_name(rc), rc_desc(rc))`, extended with
`": " + msg` when `msg` is given, then `self.status = rc`. -/
def DDC_Exception.create (rcName rcDesc : Int → String) (rc : Int)
    (msg : Option String) : DDC_Exception :=
  let s0 := "DDC status: " ++ rcName rc ++ " - " ++ rcDesc rc
  let s1 := match msg with
    | some m => s0 ++ ": " ++ m
    | none => s0
  ⟨rc, s1⟩

/-- Embedding of `check_ddca_status(rc)` (lines 90-96): raise
`DDC_Exception(rc)` when `rc != 0`, otherwise fall through.  The `print(excp)`
side effect carries no information and is not modelled. -/
def check_ddca_status (rcName rcDesc : Int → String) (rc : Int) :
    Except DDC_Exception Unit :=
  if rc ≠ 0 then Except.error (DDC_Exception.create rcName rcDesc rc none)
  else Except.ok ()

/-!
## Utilities (`bits_to_frozenset`, lines 41-48) and its two callers
-/

/-- Embedding of `bits_to_frozenset(bits)`: for `i in range(16)`, `v = 1 << i`
is added to the set exactly when `bits & v` is truthy (non-zero). -/
def bits_to_frozenset (bits : Nat) : Finset Nat :=
  ((Finset.range 16).filter (fun i => bits &&& (1 <<< i) ≠ 0)).image
    (fun i => 1 <<< i)

/-- Embedding of `build_options_as_set()` (lines 119-121); the bit mask
returned by the native `ddca_build_options()` is the parameter. -/
def build_options_as_set (build_option_bits : Nat) : Finset Nat :=
  bits_to_frozenset build_option_bits

/-- The fields of the native `DDCA_Version_Feature_Info` record that the
embedded accessors need. -/
structure Feature_Info where
  feature_code : Nat
  feature_flags : Nat
deriving DecidableEq, Repr

/-- Embedding of the property `Feature_Info.feature_flags_as_set`
(lines 283-286): `bits_to_frozenset(self.feature_flags)`. -/
def Feature_Info.feature_flags_as_set (fi : Feature_Info) : Finset Nat :=
  bits_to_frozenset fi.feature_flags

/-!
## Handle wrappers and their release methods

`Display_Identifier` (lines 575-622), `Display_Ref` (lines 627-659),
`Display_Handle` (lines 686 ff.), `Parsed_Capabilities` (lines 320-353).
None of the four classes stores any released/closed flag: the only per-handle
state is the raw native token (`c_did` / `c_dref` / `c_dh` / `_c_pcaps`).
Each release method is embedded as a function from the wrapper (and, where
the Python code checks a status, the native call returns `rc`) to the list of
emitted native calls paired with the Python-level outcome; the wrapper in a
successful outcome is the receiver itself, unchanged, since the method bodies
never mutate `self`. -/

/-- The native entry points invoked by the release methods, as events. -/
inductive NativeCall where
  | freeDisplayIdentifier (c_did : Nat)
  | freeDisplayRef (c_dref : Nat)
  | closeDisplay (c_dh : Nat)
  | freeParsedCapabilities (c_pcaps : Nat)
deriving DecidableEq, Repr

/-- Wrapper class `Display_Identifier`: its only state is the opaque native
token `c_did` set by `create_by_dispno`. -/
structure Display_Identifier where
  c_did : Nat
deriving DecidableEq, Repr

/-- Embedding of `Display_Identifier.free` (lines 604-608): unconditionally
call `lib.ddca_free_display_identifier(self.c_did)`, then raise on a non-zero
`rc`.  There is no released flag and no guard: the native free is emitted on
every invocation. -/
def Display_Identifier.free (d : Display_Identifier) (rc : Int)
    (rcName rcDesc : Int → String) :
    List NativeCall × Except DDC_Exception Display_Identifier :=
  ([NativeCall.freeDisplayIdentifier d.c_did],
   if rc ≠ 0 then Except.error (DDC_Exception.create rcName rcDesc rc none)
   else Except.ok d)

/-- Wrapper class `Display_Ref`: its only state is the opaque native token
`c_dref`. -/
structure Display_Ref where
  c_dref : Nat
deriving DecidableEq, Repr

/-- Embedding of `Display_Ref.free` (lines 646-650): unconditionally call
`lib.ddca_free_display_ref(self.c_dref)`, then raise on a non-zero `rc`. -/
def Display_Ref.free (d : Display_Ref) (rc : Int)
    (rcName rcDesc : Int → String) :
    List NativeCall × Except DDC_Exception Display_Ref :=
  ([NativeCall.freeDisplayRef d.c_dref],
   if rc ≠ 0 then Except.error (DDC_Exception.create rcName rcDesc rc none)
   else Except.ok d)

/-- Wrapper class `Display_Handle`: its only state is the opaque native token
`c_dh` set by `open`. -/
structure Display_Handle where
  c_dh : Nat
deriving DecidableEq, Repr

/-- Embedding of `Display_Handle.close` (lines 699-703): unconditionally call
`lib.ddca_close_display(self.c_dh)`, then raise on a non-zero `rc`. -/
def Display_Handle.close (dh : Display_Handle) (rc : Int)
    (rcName rcDesc : Int → String) :
    List NativeCall × Except DDC_Exception Display_Handle :=
  ([NativeCall.closeDisplay dh.c_dh],
   if rc ≠ 0 then Except.error (DDC_Exception.create rcName rcDesc rc none)
   else Except.ok dh)

/-- Wrapper class `Parsed_Capabilities`: its only state is the opaque native
token `_c_pcaps`. -/
structure Parsed_Capabilities where
  c_pcaps : Nat
deriving DecidableEq, Repr

/-- Embedding of `Parsed_Capabilities.free` (lines 344-346): unconditionally
call `lib.ddca_free_parsed_capabilities(self._c_pcaps)`; the native function
returns void, so there is no status check. -/
def Parsed_Capabilities.free (p : Parsed_Capabilities) :
    List NativeCall × Parsed_Capabilities :=
  ([NativeCall.freeParsedCapabilities p.c_pcaps], p)

/-!
## VCP value writes (`Display_Handle.set_*_vcp_value`, lines 806-818)
-/

/-- The argument tuple the adapter passes to the native
`lib.ddca_set_raw_vcp_value(self.c_dh, vcp_code, sh, sl)`. -/
structure NcRawWrite where
  c_dh : Nat
  vcp_code : Nat
  sh : Nat
  sl : Nat
deriving DecidableEq, Repr

/-- Embedding of `Display_Handle.set_nc_vcp_value(vcp_code, sh, sl)`
(lines 806-810): the byte pair is forwarded unchanged to
`ddca_set_raw_vcp_value` (the status check after the call is independent of
the bytes sent and is not repeated here). -/
def Display_Handle.set_nc_vcp_value (dh : Display_Handle)
    (vcp_code sh sl : Nat) : NcRawWrite :=
  ⟨dh.c_dh, vcp_code, sh, sl⟩

/-- Embedding of `Display_Handle.set_continuous_vcp_value(vcp_code, newval)`
(lines 815-818) exactly as written: `sh = newval >> 8; sl = newval % 0xff`.
Note the source uses the modulus operator with `0xff`, not a bitwise and. -/
def Display_Handle.set_continuous_vcp_value (dh : Display_Handle)
    (vcp_code newval : Nat) : NcRawWrite :=
  Display_Handle.set_nc_vcp_value dh vcp_code (newval >>> 8) (newval % 0xff)

/-!
## Non-table VCP values (`Non_Table_Vcp_Value`, lines 828-863)
-/

/-- The stored attributes of a `Non_Table_Vcp_Value` instance. -/
structure Non_Table_Vcp_Value where
  opcode : Nat
  mh : Nat
  ml : Nat
  sh : Nat
  sl : Nat
deriving DecidableEq, Repr

/-- Embedding of `__getattr__` for `"cur_val"`: `self.sh << 8 | self.sl`. -/
def Non_Table_Vcp_Value.cur_val (v : Non_Table_Vcp_Value) : Nat :=
  v.sh <<< 8 ||| v.sl

/-- Embedding of `__getattr__` for `"max_val"`: `self.mh << 8 | self.ml`. -/
def Non_Table_Vcp_Value.max_val (v : Non_Table_Vcp_Value) : Nat :=
  v.mh <<< 8 ||| v.ml

/-- Embedding of `__setattr__` for `"curval"`: set `sh = newval >> 8` and
`sl = newval & 0xff`. -/
def Non_Table_Vcp_Value.set_curval (v : Non_Table_Vcp_Value) (newval : Nat) :
    Non_Table_Vcp_Value :=
  { v with sh := newval >>> 8, sl := newval &&& 0xff }

/-- Embedding of `__setattr__` for `"maxval"`: set `mh = newval >> 8` and
`ml = newval & 0xff`. -/
def Non_Table_Vcp_Value.set_maxval (v : Non_Table_Vcp_Value) (newval : Nat) :
    Non_Table_Vcp_Value :=
  { v with mh := newval >>> 8, ml := newval &&& 0xff }

/-!
## I/O path decoding (`IO_Path.create_from_cdata`, lines 376-424)
-/

/-- `lib.DDCA_IO_DEVI2C`: first value of the C enum `DDCA_IO_Mode`. -/
def IO_DEVI2C : Nat := 0

/-- `lib.DDCA_IO_ADL`: second value of the C enum `DDCA_IO_Mode`. -/
def IO_ADL : Nat := 1

/-- `lib.DDCA_IO_USB`: third value of the C enum `DDCA_IO_Mode`. -/
def IO_USB : Nat := 2

/-- The native `DDCA_IO_Path` struct: the discriminant `io_mode` plus the
union payload.  Only the `i2c_busno` view of the union is modelled, because
it is the only payload field the Python code ever reads: the ADL and USB
branches refer to the undefined module-level names `adlno` and
`hiddev_devno` instead of fields of `cdata`. -/
structure IOPathCData where
  io_mode : Nat
  i2c_busno : Int
deriving DecidableEq, Repr

/-- The decoded I/O path variants, one per subclass of the Python class
`IO_Path`: `DEVI2C_IO_Path`, `ADL_IO_Path`, `USB_IO_Path`. -/
inductive IO_Path where
  | devI2C (busno : Int)
  | adl (iAdapterIndex iDisplayIndex : Int)
  | usb (hiddev_devno : Int)
deriving DecidableEq, Repr

/-- Embedding of `IO_Path.create_from_cdata(cdata)` (lines 386-395) exactly as
written:
* `io_mode == IO_DEVI2C`: return `DEVI2C_IO_Path(cdata.i2c_busno)`;
* `elif io_mode == IO_ADL`: evaluate `DEVADL_IO_PATH(adlno.iAdapterIndex,
  adlno.iDisplayIndex)` — both `DEVADL_IO_PATH` and `adlno` are names defined
  nowhere in the module (the class is called `ADL_IO_Path`), so the branch
  raises `NameError`;
* `else` (the USB tag and every other discriminant value): evaluate
  `DEVUSB_IO_PATH(hiddev_devno)` — both names are undefined (the class is
  called `USB_IO_Path`), so the branch raises `NameError`. -/
def IO_Path.create_from_cdata (cdata : IOPathCData) : Except PyErr IO_Path :=
  if cdata.io_mode = IO_DEVI2C then
    Except.ok (IO_Path.devI2C cdata.i2c_busno)
  else if cdata.io_mode = IO_ADL then
    Except.error PyErr.nameError
  else
    Except.error PyErr.nameError

/-!
## Display information (`Display_Info`, `get_display_info_list`,
lines 432-571)
-/

/-- The fields of one native `DDCA_Display_Info` record, as decodable values:
the NUL-terminated strings, the EDID byte array, and the embedded
`DDCA_IO_Path` struct. -/
structure CDisplayInfo where
  dispno : Int
  mfg_id : String
  model_name : String
  sn : String
  edid_bytes : List Nat
  path : IOPathCData

/-- The native `DDCA_Display_Info_List` buffer returned by
`lib.ddca_get_display_info_list()`: a count and the backing array of records,
owned by the native library. -/
structure DDCA_Display_Info_List where
  ct : Nat
  info : Nat → CDisplayInfo

/-- Wrapper class `Display_Info`: `__init__` stores the cdata record
reference in `self._c_dinfo` without copying any field.  The reference is
modelled as the index of the record in the native array. -/
structure Display_Info where
  c_dinfo : Nat
deriving DecidableEq, Repr

/-- Embedding of the property `Display_Info.dispno` (lines 439-441): reads
`self._c_dinfo.dispno` from the native record at access time, so the current
native memory is an argument. -/
def Display_Info.dispno (mem : DDCA_Display_Info_List) (d : Display_Info) :
    Int :=
  (mem.info d.c_dinfo).dispno

/-- Embedding of the property `Display_Info.mfg_id` (lines 446-452):
`ffi.string(self._c_dinfo.mfg_id)` decoded as UTF-8, read from the native
record at access time. -/
def Display_Info.mfg_id (mem : DDCA_Display_Info_List) (d : Display_Info) :
    String :=
  (mem.info d.c_dinfo).mfg_id

/-- Embedding of the property `Display_Info.model_name` (lines 457-463). -/
def Display_Info.model_name (mem : DDCA_Display_Info_List)
    (d : Display_Info) : String :=
  (mem.info d.c_dinfo).model_name

/-- Embedding of the property `Display_Info.sn` (lines 469-474). -/
def Display_Info.sn (mem : DDCA_Display_Info_List) (d : Display_Info) :
    String :=
  (mem.info d.c_dinfo).sn

/-- Embedding of the property `Display_Info.edid_bytes` (lines 479-482):
`bytes(ffi.buffer(self._c_dinfo.edid_bytes, 128))` — 128 bytes are copied out
of the native record, but only at access time. -/
def Display_Info.edid_bytes (mem : DDCA_Display_Info_List)
    (d : Display_Info) : List Nat :=
  (mem.info d.c_dinfo).edid_bytes.take 128

/-- Embedding of the property `Display_Info.path` (lines 487-493):
`IO_Path.create_from_cdata(self._c_dinfo.path)`, decoding the native record
at access time. -/
def Display_Info.path (mem : DDCA_Display_Info_List) (d : Display_Info) :
    Except PyErr IO_Path :=
  IO_Path.create_from_cdata (mem.info d.c_dinfo).path

/-- Embedding of `get_display_info_list()` (lines 560-571): call the native
listing function once, then for `ndx in range(dilist.ct)` wrap the cdata
reference `dilist.info[ndx]` in a `Display_Info` and append it.  No field is
copied; each wrapper holds only the reference into the native array. -/
def get_display_info_list (dilist : DDCA_Display_Info_List) :
    List Display_Info :=
  (List.range dilist.ct).map (fun ndx => ⟨ndx⟩)

/-!
## Feature value tables (`Feature_Value_Table`, lines 184-235)
-/

/-- One entry of the native `DDCA_Feature_Value_Table` array: a value code
byte and a `char *` name (possibly NULL). -/
structure FVTEntry where
  value_code : Nat
  value_name : Option String
deriving DecidableEq, Repr

/-- Python dict assignment `d[k] = v` on an insertion-ordered association
list: update in place when `k` is already a key, append otherwise. -/
def dictInsert (d : List (Nat × String)) (k : Nat) (v : String) :
    List (Nat × String) :=
  if d.any (fun p => p.1 == k) then
    d.map (fun p => if p.1 = k then (k, v) else p)
  else
    d ++ [(k, v)]

/-- The scanning loop of `Feature_Value_Table.create_from_c_table`
(lines 194-204): starting from dict `acc`, read entry `ndx`, stop when
`value_code == 0 and value_name == ffi.NULL`, otherwise decode the name with
`ffi.string` (NULL would fault: `nullDeref`) and store it under the code.
The `while True` loop has no bound, so a table without a sentinel runs past
the end of the native array (`bufferOverrun`). -/
def fvt_scan : List (Nat × String) → List FVTEntry →
    Except PyErr (List (Nat × String))
  | _, [] => Except.error PyErr.bufferOverrun
  | acc, e :: rest =>
    if e.value_code = 0 ∧ e.value_name = none then
      Except.ok acc
    else
      match e.value_name with
      | none => Except.error PyErr.nullDeref
      | some s => fvt_scan (dictInsert acc e.value_code s) rest

/-- Wrapper class `Feature_Value_Table`: `create_from_c_table` populates
`self.entries` with the decoded dict. -/
structure Feature_Value_Table where
  entries : List (Nat × String)
deriving DecidableEq, Repr

/-- Embedding of `Feature_Value_Table.create_from_c_table(c_table)`
(lines 189-205): scan from an empty dict. -/
def Feature_Value_Table.create_from_c_table (c_table : List FVTEntry) :
    Except PyErr Feature_Value_Table :=
  (fvt_scan [] c_table).map (fun es => ⟨es⟩)

/-- Embedding of the method call `t.lookup(args...)` for
`Feature_Value_Table.lookup` exactly as declared on lines 221-222:
`def lookup(value_code): return self.entries[value_code]`.  The definition
is missing the `self` parameter, so Python method binding passes the
receiver `t` as `value_code`: a call with any explicit argument supplies two
positional arguments to a one-parameter function and raises `TypeError`; a
call with no argument enters the body, where the name `self` is undefined
and raises `NameError`.  No execution path reaches the dict subscript, so a
`KeyError` can never be raised. -/
def Feature_Value_Table.lookup (t : Feature_Value_Table) (args : List Nat) :
    Except PyErr String :=
  if 1 + args.length ≠ 1 then Except.error PyErr.typeError
  else Except.error PyErr.nameError

/-!
## Concrete fixtures used by closed theorems
-/

/-- Stub for the native `ddca_rc_name` lookup, used in closed statements. -/
def rcNameStub : Int → String := fun _ => "DDCRC_OK"

/-- Stub for the native `ddca_rc_desc` lookup, used in closed statements. -/
def rcDescStub : Int → String := fun _ => "success"

/-- A native display-info record with EDID byte `0xAA` and manufacturer
`"AAA"`. -/
def displayRecordA : CDisplayInfo :=
  ⟨1, "AAA", "Model-1", "SN-1", [0xAA], ⟨0, 3⟩⟩

/-- The same native buffer after its contents changed: EDID byte `0xBB`,
manufacturer `"BBB"`; the count is unchanged. -/
def displayRecordB : CDisplayInfo :=
  ⟨1, "BBB", "Model-1", "SN-1", [0xBB], ⟨0, 3⟩⟩

/-- Native enumeration buffer holding one record, `displayRecordA`. -/
def displayMemA : DDCA_Display_Info_List := ⟨1, fun _ => displayRecordA⟩

/-- The same buffer location after the native library reused it:
one record, `displayRecordB`. -/
def displayMemB : DDCA_Display_Info_List := ⟨1, fun _ => displayRecordB⟩

/-- A native feature-value table: two real entries, then the sentinel
`(0, NULL)`. -/
def sampleFvTable : List FVTEntry :=
  [⟨1, some "On"⟩, ⟨2, some "Off"⟩, ⟨0, none⟩]

/-!
## Helper lemmas
-/

/-- Bit-split round trip used by the VCP value claims: re-assembling the high
byte `v >>> 8` and the masked low byte `v &&& 0xff` with shift-or recovers
`v` for every natural number `v` (the shifted part carries every bit from
position 8 up, the masked part every bit below 8). -/
theorem shiftRight_shiftLeft_or_and_ff (v : Nat) :
    (v >>> 8) <<< 8 ||| (v &&& 0xff) = v := by
  apply Nat.eq_of_testBit_eq
  intro i
  have h255 : (0xff : Nat) = 2 ^ 8 - 1 := by norm_num
  rw [h255]
  simp only [Nat.testBit_or, Nat.testBit_shiftLeft, Nat.testBit_shiftRight,
    Nat.testBit_and, Nat.testBit_two_pow_sub_one]
  by_cases h : 8 ≤ i
  · have hi : 8 + (i - 8) = i := by omega
    have hlt : ¬ i < 8 := by omega
    simp [h, hi, hlt]
  · have hlt : i < 8 := by omega
    simp [h, hlt]

/-- Summing `2 ^ i` over the set bits of `b` below `n` yields `b % 2 ^ n`. -/
theorem sum_testBit_range (b : Nat) :
    ∀ n, ((Finset.range n).sum fun i => if b.testBit i then 2 ^ i else 0) =
      b % 2 ^ n := by
  intro n
  induction n with
  | zero => simp [Nat.mod_one]
  | succ n ih =>
    rw [Finset.sum_range_succ, ih, Nat.mod_pow_succ]
    have hbit : b.testBit n = decide (b / 2 ^ n % 2 = 1) :=
      Nat.testBit_to_div_mod
    rcases Nat.mod_two_eq_zero_or_one (b / 2 ^ n) with h | h <;>
      simp [hbit, h]

/-- Membership in `bits_to_frozenset`: exactly the powers `2 ^ i` for the set
bits `i < 16` of the argument. -/
theorem mem_bits_to_frozenset (b x : Nat) :
    x ∈ bits_to_frozenset b ↔ ∃ i, i < 16 ∧ b.testBit i ∧ x = 2 ^ i := by
  simp only [bits_to_frozenset, Finset.mem_image, Finset.mem_filter,
    Finset.mem_range, Nat.one_shiftLeft, Nat.and_two_pow]
  constructor
  · rintro ⟨i, ⟨hi, hne⟩, hx⟩
    refine ⟨i, hi, ?_, hx.symm⟩
    by_contra hb
    simp [hb] at hne
  · rintro ⟨i, hi, hb, hx⟩
    exact ⟨i, ⟨hi, by simp [hb]⟩, hx.symm⟩

/-- `dictInsert` makes the inserted key a key and keeps every existing key. -/
theorem dictInsert_keys (d : List (Nat × String)) (k : Nat) (v : String) :
    k ∈ (dictInsert d k v).map Prod.fst ∧
    ∀ k2, k2 ∈ d.map Prod.fst → k2 ∈ (dictInsert d k v).map Prod.fst := by
  unfold dictInsert
  by_cases h : d.any (fun p => p.1 == k)
  · simp only [h, if_true]
    constructor
    · rcases List.any_eq_true.mp h with ⟨p, hp, hpk⟩
      have hk : p.1 = k := by simpa using hpk
      refine List.mem_map.mpr ⟨(k, v), ?_, rfl⟩
      refine List.mem_map.mpr ⟨p, hp, ?_⟩
      simp [hk]
    · intro k2 hk2
      rcases List.mem_map.mp hk2 with ⟨p, hp, hpk⟩
      by_cases hpk2 : p.1 = k
      · refine List.mem_map.mpr ⟨(k, v), ?_, ?_⟩
        · exact List.mem_map.mpr ⟨p, hp, by simp [hpk2]⟩
        · simp [← hpk, hpk2]
      · refine List.mem_map.mpr ⟨p, ?_, hpk⟩
        exact List.mem_map.mpr ⟨p, hp, by simp [hpk2]⟩
  · simp only [h, if_false]
    constructor
    · simp
    · intro k2 hk2
      rcases List.mem_map.mp hk2 with ⟨p, hp, hpk⟩
      exact List.mem_map.mpr ⟨p, List.mem_append_left _ hp, hpk⟩

/-- Keys present in the accumulator survive a successful scan. -/
theorem fvt_scan_preserves_keys (tbl : List FVTEntry) :
    ∀ acc k, k ∈ acc.map Prod.fst →
    ∀ d, fvt_scan acc tbl = Except.ok d → k ∈ d.map Prod.fst := by
  induction tbl with
  | nil =>
    intro acc k hk d hd
    exact Except.noConfusion hd
  | cons e rest ih =>
    intro acc k hk d hd
    unfold fvt_scan at hd
    by_cases hs : e.value_code = 0 ∧ e.value_name = none
    · simp only [hs, if_true] at hd
      cases hd
      exact hk
    · simp only [hs, if_false] at hd
      cases hn : e.value_name with
      | none => rw [hn] at hd; cases hd
      | some s =>
        rw [hn] at hd
        exact ih (dictInsert acc e.value_code s) k
          ((dictInsert_keys acc e.value_code s).2 k hk) d hd

/-!
## Claim theorems
-/

/-- Claim C1 (code bug), evaluated at the failing input.  The claim says
`set_continuous_vcp_value` passes the byte pair `(v >> 8, v & 0xFF)` to the
native set call, so writing `v = 300` sends `(1, 44)`.  The source computes
`sl = newval % 0xff` — modulo 255, not a mask — so writing `300` actually
sends `(1, 45)`, which re-assembles to `301`, not `300`, and the low byte
differs from `300 &&& 0xff = 44` required by the claim (the sibling setter
`Non_Table_Vcp_Value.__setattr__` uses `newval & 0xff`, confirming that the
mask was intended). -/
theorem set_continuous_vcp_value_mod255_bug :
    Display_Handle.set_continuous_vcp_value ⟨7⟩ 0x10 300 =
      Display_Handle.set_nc_vcp_value ⟨7⟩ 0x10 1 45 ∧
    (Display_Handle.set_continuous_vcp_value ⟨7⟩ 0x10 300).sh * 256 +
      (Display_Handle.set_continuous_vcp_value ⟨7⟩ 0x10 300).sl = 301 ∧
    (300 : Nat) &&& 0xff = 44 ∧
    (Display_Handle.set_continuous_vcp_value ⟨7⟩ 0x10 300).sl ≠
      300 &&& 0xff := by
  refine ⟨rfl, by decide, by decide, by decide⟩

/-- Claim C2 counterexample.  On the concrete wrapper with native token `42`:
the first (successful, `rc = 0`) call to `Display_Identifier.free` returns
the wrapper unchanged — the class has no released flag to set — and invoking
`free` on that returned wrapper emits `ddca_free_display_identifier(42)` a
second time.  The claim says a second release never results in a second
native free call on the same handle. -/
theorem double_release_emits_second_native_free :
    (Display_Identifier.free ⟨42⟩ 0 rcNameStub rcDescStub).2 =
      Except.ok ⟨42⟩ ∧
    (Display_Identifier.free ⟨42⟩ 0 rcNameStub rcDescStub).1 =
      [NativeCall.freeDisplayIdentifier 42] ∧
    (Display_Identifier.free ⟨42⟩ 0 rcNameStub rcDescStub).1 ≠ [] := by
  refine ⟨rfl, rfl, by decide⟩

/-- Claim C2 amended: none of the four handle wrappers tracks a released
flag; every invocation of `free`/`close` — first or repeated — emits the
native free/close call on the stored handle, and on success the wrapper
state is returned unchanged, so the per-handle state machine has a
native-call-emitting transition out of every state. -/
theorem release_always_invokes_native_free (did dref dh pc : Nat) (rc : Int)
    (rcName rcDesc : Int → String) :
    (Display_Identifier.free ⟨did⟩ rc rcName rcDesc).1 =
      [NativeCall.freeDisplayIdentifier did] ∧
    (Display_Ref.free ⟨dref⟩ rc rcName rcDesc).1 =
      [NativeCall.freeDisplayRef dref] ∧
    (Display_Handle.close ⟨dh⟩ rc rcName rcDesc).1 =
      [NativeCall.closeDisplay dh] ∧
    (Parsed_Capabilities.free ⟨pc⟩).1 =
      [NativeCall.freeParsedCapabilities pc] ∧
    (Display_Identifier.free ⟨did⟩ rc rcName rcDesc).2 =
      (if rc ≠ 0 then
        Except.error (DDC_Exception.create rcName rcDesc rc none)
      else Except.ok ⟨did⟩) :=
  ⟨rfl, rfl, rfl, rfl, rfl⟩

/-- Claim C3 counterexample.  At the explicit input with the recognized
native tag `IO_ADL` (and payload `0`), `IO_Path.create_from_cdata` does not
produce the ADL variant of the sum type: it raises `NameError` (the branch
calls the undefined name `DEVADL_IO_PATH` on the undefined name `adlno`).
The USB tag fares the same, and the unrecognized discriminant `99` is
routed to the same `else` branch as USB — it is not distinguished as a
decoding error. -/
theorem create_from_cdata_no_variant_for_adl_usb :
    IO_Path.create_from_cdata ⟨IO_ADL, 0⟩ = Except.error PyErr.nameError ∧
    IO_Path.create_from_cdata ⟨IO_USB, 0⟩ = Except.error PyErr.nameError ∧
    IO_Path.create_from_cdata ⟨99, 0⟩ =
      IO_Path.create_from_cdata ⟨IO_USB, 0⟩ := by
  refine ⟨rfl, rfl, rfl⟩

/-- Claim C3 amended: `IO_Path.create_from_cdata` decodes only the I2C tag,
to `DEVI2C_IO_Path(cdata.i2c_busno)`; for the ADL tag and for every other
discriminant (the USB tag and all unrecognized values share the `else`
branch) it raises `NameError` from undefined names instead of returning a
variant or a dedicated decoding error. -/
theorem create_from_cdata_only_decodes_i2c (cdata : IOPathCData) :
    IO_Path.create_from_cdata cdata =
      if cdata.io_mode = IO_DEVI2C then
        Except.ok (IO_Path.devI2C cdata.i2c_busno)
      else Except.error PyErr.nameError := by
  unfold IO_Path.create_from_cdata
  by_cases h : cdata.io_mode = IO_DEVI2C
  · simp [h]
  · by_cases h2 : cdata.io_mode = IO_ADL <;> simp [h, h2]

/-- Claim C4: `check_ddca_status(rc)` raises exactly when `rc ≠ 0`; the
raised `DDC_Exception` carries `status = rc` and a message assembled from
the native `rc_name(rc)` and `rc_desc(rc)` lookups; on `rc = 0` it returns
normally. -/
theorem check_ddca_status_raises_iff_nonzero (rcName rcDesc : Int → String)
    (rc : Int) :
    check_ddca_status rcName rcDesc rc =
      (if rc = 0 then Except.ok ()
       else Except.error
         ⟨rc, "DDC status: " ++ rcName rc ++ " - " ++ rcDesc rc⟩) ∧
    (check_ddca_status rcName rcDesc rc = Except.ok () ↔ rc = 0) := by
  unfold check_ddca_status DDC_Exception.create
  by_cases h : rc = 0 <;> simp [h]

/-- Claim C5 counterexample.  The `Display_Info` produced by enumerating the
native buffer while it held `displayRecordA` reads its fields through the
retained cdata reference: when the native library later reuses the buffer
(`displayMemB`), the same wrapper object yields the new manufacturer string
and the new EDID bytes, so the wrapper both retains a pointer into the
enumeration buffer and reads it after `get_display_info_list` returned —
the claim says every field is copied into owned values before returning. -/
theorem display_info_reads_native_buffer_after_return :
    get_display_info_list displayMemA = [⟨0⟩] ∧
    Display_Info.mfg_id displayMemA ⟨0⟩ = "AAA" ∧
    Display_Info.mfg_id displayMemB ⟨0⟩ = "BBB" ∧
    Display_Info.mfg_id displayMemB ⟨0⟩ ≠
      Display_Info.mfg_id displayMemA ⟨0⟩ ∧
    Display_Info.edid_bytes displayMemB ⟨0⟩ ≠
      Display_Info.edid_bytes displayMemA ⟨0⟩ := by
  refine ⟨rfl, rfl, rfl, by decide, by decide⟩

/-- Claim C5 amended: `get_display_info_list` copies nothing.  Each returned
`Display_Info` stores only the cdata reference to its native record, and
every field access (strings, EDID bytes, I/O path) dereferences the native
enumeration buffer as it is at access time. -/
theorem get_display_info_list_retains_record_pointer
    (mem now : DDCA_Display_Info_List) (ndx : Nat) :
    (get_display_info_list mem)[ndx]? =
      (if ndx < mem.ct then some ⟨ndx⟩ else none) ∧
    Display_Info.mfg_id now ⟨ndx⟩ = (now.info ndx).mfg_id ∧
    Display_Info.model_name now ⟨ndx⟩ = (now.info ndx).model_name ∧
    Display_Info.sn now ⟨ndx⟩ = (now.info ndx).sn ∧
    Display_Info.edid_bytes now ⟨ndx⟩ = (now.info ndx).edid_bytes.take 128 ∧
    Display_Info.path now ⟨ndx⟩ =
      IO_Path.create_from_cdata (now.info ndx).path := by
  refine ⟨?_, rfl, rfl, rfl, rfl, rfl⟩
  unfold get_display_info_list
  by_cases h : ndx < mem.ct
  · rw [List.getElem?_map, List.getElem?_range h]
    simp [h]
  · rw [List.getElem?_map, List.getElem?_eq_none (by simpa using h)]
    simp [h]

/-- Claim C6: on a `Non_Table_Vcp_Value`, `cur_val` reads `sh <<< 8 ||| sl`
and `max_val` reads `mh <<< 8 ||| ml`; and for every `v ≤ 65535`, assigning
`curval = v` and reading `cur_val` back yields exactly `v` (likewise for
`maxval`/`max_val`). -/
theorem non_table_vcp_value_roundtrip (rec : Non_Table_Vcp_Value) (v : Nat)
    (hv : v ≤ 65535) :
    rec.cur_val = rec.sh <<< 8 ||| rec.sl ∧
    rec.max_val = rec.mh <<< 8 ||| rec.ml ∧
    (rec.set_curval v).cur_val = v ∧
    (rec.set_maxval v).max_val = v := by
  refine ⟨rfl, rfl, ?_, ?_⟩
  · show (v >>> 8) <<< 8 ||| (v &&& 0xff) = v
    exact shiftRight_shiftLeft_or_and_ff v
  · show (v >>> 8) <<< 8 ||| (v &&& 0xff) = v
    exact shiftRight_shiftLeft_or_and_ff v

/-- Witness for claim C6 at the claim's own example inputs: `75` round-trips
via the byte pair `(0, 75)` and `300` via `(1, 44)`. -/
theorem non_table_vcp_value_roundtrip_witness :
    ((⟨0x10, 0, 0, 0, 0⟩ : Non_Table_Vcp_Value).set_curval 75).cur_val =
      75 ∧
    ((⟨0x10, 0, 0, 0, 0⟩ : Non_Table_Vcp_Value).set_curval 300).cur_val =
      300 ∧
    ((⟨0x10, 0, 0, 0, 0⟩ : Non_Table_Vcp_Value).set_curval 75).sh = 0 ∧
    ((⟨0x10, 0, 0, 0, 0⟩ : Non_Table_Vcp_Value).set_curval 75).sl = 75 ∧
    ((⟨0x10, 0, 0, 0, 0⟩ : Non_Table_Vcp_Value).set_curval 300).sh = 1 ∧
    ((⟨0x10, 0, 0, 0, 0⟩ : Non_Table_Vcp_Value).set_curval 300).sl = 44 :=
  ⟨(non_table_vcp_value_roundtrip ⟨0x10, 0, 0, 0, 0⟩ 75 (by decide)).2.2.1,
   (non_table_vcp_value_roundtrip ⟨0x10, 0, 0, 0, 0⟩ 300 (by decide)).2.2.1,
   by decide, by decide, by decide, by decide⟩

/-- Claim C7 (code bug), evaluated at the failing input.  Decoding the
sample table produces exactly the two pre-sentinel pairs and excludes the
sentinel, as the claim says; but looking up a code absent from the decoded
mapping is not an absent-key error: `lookup` is declared without a `self`
parameter (line 221), so the call `t.lookup(99)` raises `TypeError` (two
positional arguments to a one-parameter function) and the zero-argument call
raises `NameError` (`self` is undefined in the body) — no call ever reaches
the dict subscript that would raise `KeyError`. -/
theorem feature_value_table_decode_and_lookup_bug :
    Feature_Value_Table.create_from_c_table sampleFvTable =
      Except.ok ⟨[(1, "On"), (2, "Off")]⟩ ∧
    Feature_Value_Table.lookup ⟨[(1, "On"), (2, "Off")]⟩ [99] =
      Except.error PyErr.typeError ∧
    Feature_Value_Table.lookup ⟨[(1, "On"), (2, "Off")]⟩ [] =
      Except.error PyErr.nameError := by
  refine ⟨rfl, rfl, rfl⟩

/-- Claim C8: `get_display_info_list` returns exactly one `Display_Info` per
record reported by the native listing call, in the same order (the wrapper
at position `ndx` references record `ndx`), and a zero count yields the
empty list without any error. -/
theorem get_display_info_list_one_wrapper_per_record
    (dilist : DDCA_Display_Info_List) (ndx : Nat)
    (f : Nat → CDisplayInfo) :
    (get_display_info_list dilist).length = dilist.ct ∧
    (get_display_info_list dilist)[ndx]? =
      (if ndx < dilist.ct then some ⟨ndx⟩ else none) ∧
    get_display_info_list ⟨0, f⟩ = [] := by
  refine ⟨?_, ?_, rfl⟩
  · simp [get_display_info_list]
  · unfold get_display_info_list
    by_cases h : ndx < dilist.ct
    · rw [List.getElem?_map, List.getElem?_range h]
      simp [h]
    · rw [List.getElem?_map, List.getElem?_eq_none (by simpa using h)]
      simp [h]

/-- Claim C9: the sentinel test of the table scan requires both conditions.
An entry with `value_code = 0` but a non-NULL name is not treated as the
sentinel: the scan inserts it under key `0` and continues with the rest of
the table, and key `0` is present in any successfully decoded result. -/
theorem sentinel_requires_code_zero_and_null_name (s : String)
    (rest : List FVTEntry) (acc : List (Nat × String)) :
    fvt_scan acc (⟨0, some s⟩ :: rest) = fvt_scan (dictInsert acc 0 s) rest ∧
    (∀ d, fvt_scan (dictInsert acc 0 s) rest = Except.ok d →
      0 ∈ d.map Prod.fst) := by
  constructor
  · simp [fvt_scan]
  · intro d hd
    exact fvt_scan_preserves_keys rest (dictInsert acc 0 s) 0
      ((dictInsert_keys acc 0 s).1) d hd

/-- Witness for claim C9: scanning the concrete table
`[(0, "Zero"), (0, NULL)]` from an empty dict does not stop at the first
entry — it stores `(0, "Zero")` and stops at the genuine sentinel — and key
`0` is in the decoded mapping. -/
theorem sentinel_requires_code_zero_and_null_name_witness :
    fvt_scan [] [⟨0, some "Zero"⟩, ⟨0, none⟩] = Except.ok [(0, "Zero")] ∧
    0 ∈ ([(0, "Zero")] : List (Nat × String)).map Prod.fst :=
  ⟨rfl,
   (sentinel_requires_code_zero_and_null_name "Zero" [⟨0, none⟩] []).2
     [(0, "Zero")] rfl⟩

/-- Claim C10: `bits_to_frozenset` examines only bit positions 0-15: its
members are exactly the powers `2 ^ i` for the set bits `i < 16`, their sum
is the argument modulo `2 ^ 16`, and bits at position 16 and above are
dropped (`bits_to_frozenset b = bits_to_frozenset (b % 2 ^ 16)`);
`build_options_as_set` and `Feature_Info.feature_flags_as_set` are exactly
`bits_to_frozenset` of their flag words and inherit the truncation. -/
theorem bits_to_frozenset_bits_0_to_15 (b : Nat) :
    (∀ x, x ∈ bits_to_frozenset b ↔
      ∃ i, i < 16 ∧ b.testBit i ∧ x = 2 ^ i) ∧
    (bits_to_frozenset b).sum id = b % 2 ^ 16 ∧
    bits_to_frozenset b = bits_to_frozenset (b % 2 ^ 16) ∧
    (∀ bits : Nat, build_options_as_set bits = bits_to_frozenset bits) ∧
    (∀ fi : Feature_Info,
      fi.feature_flags_as_set = bits_to_frozenset fi.feature_flags) := by
  refine ⟨mem_bits_to_frozenset b, ?_, ?_, fun _ => rfl, fun _ => rfl⟩
  · have hfilter : (Finset.range 16).filter
        (fun i => b &&& (1 <<< i) ≠ 0) =
        (Finset.range 16).filter (fun i => b.testBit i = true) := by
      apply Finset.filter_congr
      intro i hi
      simp only [Nat.one_shiftLeft, Nat.and_two_pow]
      constructor
      · intro hne
        by_contra hb
        simp [hb] at hne
      · intro hb
        simp [hb]
    have hinj : ∀ x ∈ (Finset.range 16).filter
        (fun i => b.testBit i = true), ∀ y ∈ (Finset.range 16).filter
        (fun i => b.testBit i = true), (1 <<< x) = (1 <<< y) → x = y := by
      intro x _ y _ hxy
      simp only [Nat.one_shiftLeft] at hxy
      exact Nat.pow_right_injective (by omega) hxy
    rw [bits_to_frozenset, hfilter, Finset.sum_image hinj]
    have : ((Finset.range 16).filter (fun i => b.testBit i = true)).sum
        (fun i => id (1 <<< i)) =
        (Finset.range 16).sum (fun i => if b.testBit i then 2 ^ i else 0) := by
      rw [Finset.sum_filter]
      apply Finset.sum_congr rfl
      intro i _
      by_cases hb : b.testBit i <;> simp [hb, Nat.one_shiftLeft]
    rw [this, sum_testBit_range]
  · apply Finset.ext
    intro x
    rw [mem_bits_to_frozenset, mem_bits_to_frozenset]
    constructor
    · rintro ⟨i, hi, hb, hx⟩
      refine ⟨i, hi, ?_, hx⟩
      rw [Nat.testBit_mod_two_pow]
      simp [hi, hb]
    · rintro ⟨i, hi, hb, hx⟩
      refine ⟨i, hi, ?_, hx⟩
      rw [Nat.testBit_mod_two_pow] at hb
      simpa [hi] using hb
